import Mathlib

namespace LcdClock

/-! Shallow embedding of the hardware/protocol layer of the lcd-clock firmware:
the ST7789VWx6 multi-panel display driver (`src/drivers/st7789vwx6.rs`), the
WS2812 LED driver (`src/drivers/ws2812.rs`) and the I2C bus arbiter
(`src/hardware.rs`).  Machine integers are modelled as `Nat` with explicit
truncation where Rust wraps. -/

/-- Truncation to 16 bits, modelling Rust `u16` wrap-around. -/
def u16 (n : Nat) : Nat := n % 65536

/-- Big-endian byte pair of a 16-bit value, modelling `u16::to_be_bytes`. -/
def beBytes (v : Nat) : List Nat := [v / 256 % 256, v % 256]

/-- One of the six displays left-to-right (`Display` in `drivers/st7789vwx6.rs`). -/
inductive Display where
  | D1
  | D2
  | D3
  | D4
  | D5
  | D6
deriving DecidableEq, Repr

/-- CS code of a display; the order of displays is inversed
(`Display::into_cs_value`). -/
def Display.into_cs_value : Display → Nat
  | .D1 => 5
  | .D2 => 4
  | .D3 => 3
  | .D4 => 2
  | .D5 => 1
  | .D6 => 0

/-- The three CS line states of a display (`Display::into_cs_states`):
bit 0, bit 1, bit 2 of the CS value. -/
def Display.into_cs_states (d : Display) : Bool × Bool × Bool :=
  let value := d.into_cs_value
  (value &&& 0x1 != 0, value &&& 0x2 != 0, value &&& 0x4 != 0)

/-! ### WS2812 LED driver (`src/drivers/ws2812.rs`) -/

/-- `CYCLES_PER_BIT = T1 + T2 + T3 = 2 + 5 + 3` in `WS2812::new`. -/
def cyclesPerBit : Nat := 2 + 5 + 3

/-- `FREQ = 800 kHz` in `WS2812::new`. -/
def wsFreq : Nat := 800000

/-- `bit_freq = FREQ * CYCLES_PER_BIT` in `WS2812::new`. -/
def bit_freq : Nat := wsFreq * cyclesPerBit

/-- Integer part of the PIO clock divider: `int = clock_freq / bit_freq`. -/
def ws2812_div_int (clock_freq : Nat) : Nat := clock_freq / bit_freq

/-- `rem = clock_freq - int * bit_freq` in `WS2812::new`. -/
def ws2812_rem (clock_freq : Nat) : Nat :=
  clock_freq - ws2812_div_int clock_freq * bit_freq

/-- Fractional part of the divider: `frac = (rem * 256) / bit_freq`. -/
def ws2812_div_frac (clock_freq : Nat) : Nat :=
  ws2812_rem clock_freq * 256 / bit_freq

/-- Error type of the WS2812 driver (`ws2812::Error`). -/
inductive WsError where
  | pioError
deriving DecidableEq, Repr

/-- The state the WS2812 driver keeps after construction: the LED count and
the divider parts handed to the PIO (`int as u16`, `frac as u8`). -/
structure WS2812 where
  led_count : Nat
  div_int : Nat
  div_frac : Nat
deriving DecidableEq, Repr

/-- `WS2812::new`: installing the PIO program is the only fallible step
(`pio.install(..).map_err(|_| Error::PioError)?`, modelled by `install_ok`);
the clock divider is then computed and truncated (`int as u16`, `frac as u8`)
and construction succeeds. -/
def ws2812_new (led_count clock_freq : Nat) (install_ok : Bool) :
    Except WsError WS2812 :=
  if install_ok then
    Except.ok
      { led_count := led_count
        div_int := ws2812_div_int clock_freq % 65536
        div_frac := ws2812_div_frac clock_freq % 256 }
  else
    Except.error WsError.pioError

/-- The 32-bit word packed by `WS2812::display`:
`(g << 24) | (r << 16) | (b << 8)` on `u32`. -/
def ws2812_word (r g b : Nat) : Nat :=
  ((g <<< 24) ||| (r <<< 16) ||| (b <<< 8)) % 4294967296

/-- The sequence of words `WS2812::display` pushes into the PIO transmit
queue: the packed word once per configured LED. -/
def ws2812_display (w : WS2812) (r g b : Nat) : List Nat :=
  List.replicate w.led_count (ws2812_word r g b)

/-! ### I2C bus arbiter (`src/hardware.rs`) -/

/-- The error produced by the arbiter (`lcd_clock::Error::I2CClaim`). -/
inductive ClockError where
  | i2cClaim
deriving DecidableEq, Repr

/-- The resource slots of `LcdClockHardware`: the I2C bus handle and the two
device-state blobs, each parked (`some`) or checked out (`none`).  The bus
handle type `B`, the RTC state `R` and the humidity-sensor state `H` are
abstract. -/
structure LcdClockHardware (B R H : Type) where
  i2c_bus : Option B
  rtc : Option R
  humidity_sensor : Option H
deriving DecidableEq, Repr

/-- `LcdClockHardware::with_rtc`: if either the bus handle or the RTC state is
absent, fail with `I2CClaim`; otherwise take both, run the operation `f` on
the transient driver value (modelled as a function from the pair to the
updated pair plus a result), and park both back. -/
def with_rtc {B R H Res : Type} (s : LcdClockHardware B R H)
    (f : B × R → (B × R) × Res) :
    LcdClockHardware B R H × Except ClockError Res :=
  if s.i2c_bus.isNone || s.rtc.isNone then
    (s, Except.error ClockError.i2cClaim)
  else
    match s.i2c_bus, s.rtc with
    | some i2c_bus, some ds3231_state =>
        let out := f (i2c_bus, ds3231_state)
        ({ s with i2c_bus := some out.1.1, rtc := some out.1.2 },
          Except.ok out.2)
    | _, _ => (s, Except.error ClockError.i2cClaim)

/-- `LcdClockHardware::with_humidity_sensor`: same checkout discipline on the
bus handle and the BME280 state. -/
def with_humidity_sensor {B R H Res : Type} (s : LcdClockHardware B R H)
    (f : B × H → (B × H) × Res) :
    LcdClockHardware B R H × Except ClockError Res :=
  if s.i2c_bus.isNone || s.humidity_sensor.isNone then
    (s, Except.error ClockError.i2cClaim)
  else
    match s.i2c_bus, s.humidity_sensor with
    | some i2c_bus, some bme280_state =>
        let out := f (i2c_bus, bme280_state)
        ({ s with i2c_bus := some out.1.1, humidity_sensor := some out.1.2 },
          Except.ok out.2)
    | _, _ => (s, Except.error ClockError.i2cClaim)

/-- Whether an `Except` value is a success. -/
def exOk {ε α : Type} : Except ε α → Bool
  | Except.ok _ => true
  | Except.error _ => false

/-! ### ST7789VWx6 display driver (`src/drivers/st7789vwx6.rs`)

The driver is modelled as a writer over the observable pin/bus events: each
operation maps the count of SPI writes performed so far to the events it
emits, the new count, and its result.  An oracle `ok : Nat → Bool` tells
whether the n-th SPI write succeeds (`spi.write` is the only fallible call). -/

/-- An observable hardware event of the display driver: one of the chip-select
lines, the data/command line or the reset line being driven, the backlight
duty being set, or a byte sequence written on SPI. -/
inductive Event where
  | csa1 (b : Bool)
  | csa2 (b : Bool)
  | csa3 (b : Bool)
  | dc (b : Bool)
  | rst (b : Bool)
  | blDuty (n : Nat)
  | spiWrite (bytes : List Nat)
deriving DecidableEq, Repr

/-- Error type of the display driver (`st7789vwx6::Error`). -/
inductive DispError where
  | outOfBounds
  | busWrite
deriving DecidableEq, Repr

/-- Output of a display-driver operation: emitted events, updated SPI write
count, and the `Result`. -/
abbrev DOut := List Event × Nat × Except DispError Unit

/-- A display-driver operation, as a function of the SPI write count. -/
abbrev DOp := Nat → DOut

/-- Sequencing of two driver operations with `?` on the first
(the second runs only when the first succeeded). -/
def dBind (a b : DOp) : DOp := fun c =>
  match a c with
  | (e1, c1, Except.ok _) =>
      match b c1 with
      | (e2, c2, r) => (e1 ++ e2, c2, r)
  | (e1, c1, Except.error e) => (e1, c1, Except.error e)

/-- ST7789 command opcodes used by the addressing/draw path. -/
def CASET : Nat := 0x2A

/-- Row address set opcode. -/
def RASET : Nat := 0x2B

/-- Memory write opcode. -/
def RAMWR : Nat := 0x2C

/-- Events of `cs_low`: decompose the display's CS value into the three
line states and drive the three CS lines. -/
def csLowEvents (d : Display) : List Event :=
  [Event.csa1 d.into_cs_states.1, Event.csa2 d.into_cs_states.2.1,
    Event.csa3 d.into_cs_states.2.2]

/-- Events of `cs_high`: drive all three CS lines high. -/
def csHighEvents : List Event :=
  [Event.csa1 true, Event.csa2 true, Event.csa3 true]

/-- `send_commands`: drive D/C low, then write the opcode bytes on SPI;
fails with `BusWrite` when the SPI write fails. -/
def send_commands (ok : Nat → Bool) (cmds : List Nat) : DOp := fun c =>
  ([Event.dc false, Event.spiWrite cmds], c + 1,
    if ok c then Except.ok () else Except.error DispError.busWrite)

/-- `send_command`: send a single opcode byte. -/
def send_command (ok : Nat → Bool) (cmd : Nat) : DOp :=
  send_commands ok [cmd]

/-- `send_data`: drive D/C high, then write the payload bytes on SPI. -/
def send_data (ok : Nat → Bool) (data : List Nat) : DOp := fun c =>
  ([Event.dc true, Event.spiWrite data], c + 1,
    if ok c then Except.ok () else Except.error DispError.busWrite)

/-- `with_cs`: select the display, run the inner operation, deselect
(drive all CS lines high), and return the inner result. -/
def with_cs (d : Display) (f : DOp) : DOp := fun c =>
  match f c with
  | (e, c1, r) => (csLowEvents d ++ e ++ csHighEvents, c1, r)

/-- `ST7789VWx6::set_region` (current driver, `src/drivers/st7789vwx6.rs`):
offsets are `x_start += 52; x_end += 52 - 1; y_start += 40; y_end += 40 - 1`,
then `CASET` with the big-endian x pair and `RASET` with the big-endian
y pair are sent. -/
def set_region (ok : Nat → Bool) (x_start y_start x_end y_end : Nat) : DOp :=
  dBind (send_command ok CASET)
    (dBind (send_data ok
        (beBytes (u16 (x_start + 52)) ++ beBytes (u16 (x_end + (52 - 1)))))
      (dBind (send_command ok RASET)
        (send_data ok
          (beBytes (u16 (y_start + 40)) ++ beBytes (u16 (y_end + (40 - 1)))))))

/-- `ST7789VWx6::set_region` (historical version, `src/st7789vwx6.rs`):
offsets are `x_start += 52; x_end += 52; y_start += 40; y_end += 40`. -/
def set_region_historical (ok : Nat → Bool) (x_start y_start x_end y_end : Nat) :
    DOp :=
  dBind (send_commands ok [CASET])
    (dBind (send_data ok
        (beBytes (u16 (x_start + 52)) ++ beBytes (u16 (x_end + 52))))
      (dBind (send_commands ok [RASET])
        (send_data ok
          (beBytes (u16 (y_start + 40)) ++ beBytes (u16 (y_end + 40))))))

/-- `ST7789VWx6::set_pixels`: under chip select, program the region, send
`RAMWR`, and send the color payload in one data write. -/
def set_pixels (ok : Nat → Bool) (d : Display)
    (x_start y_start x_end y_end : Nat) (colors : List Nat) : DOp :=
  with_cs d
    (dBind (set_region ok x_start y_start x_end y_end)
      (dBind (send_command ok RAMWR) (send_data ok colors)))

/-- Output of the buffered streaming loop of `set_pixels_iter`: events, SPI
write count, result, final buffer contents and final buffer index. -/
structure LoopOut where
  events : List Event
  count : Nat
  result : Except DispError Unit
  buf : List Nat
  idx : Nat

/-- The `for v in colors` loop of `set_pixels_iter`: store each byte in the
256-byte buffer; when the buffer fills, send it (propagating a failure) and
restart at index 0. -/
def pixelsLoop (ok : Nat → Bool) (buf : List Nat) (i : Nat) :
    List Nat → Nat → LoopOut
  | [], c => ⟨[], c, Except.ok (), buf, i⟩
  | v :: rest, c =>
      let buf1 := buf.set i v
      let i1 := i + 1
      if i1 = 256 then
        match send_data ok buf1 c with
        | (e, c1, Except.ok _) =>
            let out := pixelsLoop ok buf1 0 rest c1
            ⟨e ++ out.events, out.count, out.result, out.buf, out.idx⟩
        | (e, c1, Except.error er) => ⟨e, c1, Except.error er, buf1, 0⟩
      else
        pixelsLoop ok buf1 i1 rest c

/-- Body of `set_pixels_iter` after `RAMWR`: run the buffered loop starting
from a zeroed buffer, then flush the whole buffer once more if the final
index is non-zero. -/
def iter_body (ok : Nat → Bool) (colors : List Nat) : DOp := fun c =>
  let out := pixelsLoop ok (List.replicate 256 0) 0 colors c
  match out.result with
  | Except.ok _ =>
      if out.idx ≠ 0 then
        match send_data ok out.buf out.count with
        | (e2, c2, r2) => (out.events ++ e2, c2, r2)
      else
        (out.events, out.count, Except.ok ())
  | Except.error er => (out.events, out.count, Except.error er)

/-- `ST7789VWx6::set_pixels_iter`: under chip select, program the region,
send `RAMWR`, then stream the color bytes through the 256-byte buffer. -/
def set_pixels_iter (ok : Nat → Bool) (d : Display)
    (x_start y_start x_end y_end : Nat) (colors : List Nat) : DOp :=
  with_cs d
    (dBind (set_region ok x_start y_start x_end y_end)
      (dBind (send_command ok RAMWR) (iter_body ok colors)))

/-- Events of `hard_reset`: pulse the reset line high-low-high (settle delays
are not observable events). -/
def hardResetEvents : List Event :=
  [Event.rst true, Event.rst false, Event.rst true]

/-- `ST7789VWx6::init_display`: the fixed vendor init sequence sent to one
panel. -/
def init_display (ok : Nat → Bool) : DOp :=
  dBind (send_command ok 0x36) (dBind (send_data ok [0x00])
  (dBind (send_command ok 0x3A) (dBind (send_data ok [0x55])
  (dBind (send_command ok 0xB2) (dBind (send_data ok [0x0C, 0x0C, 0x00, 0x33, 0x33])
  (dBind (send_command ok 0xB7) (dBind (send_data ok [0x35])
  (dBind (send_command ok 0xBB) (dBind (send_data ok [0x19])
  (dBind (send_command ok 0xC0) (dBind (send_data ok [0x2C])
  (dBind (send_command ok 0xC2) (dBind (send_data ok [0x01])
  (dBind (send_command ok 0xC3) (dBind (send_data ok [0x12])
  (dBind (send_command ok 0xC4) (dBind (send_data ok [0x20])
  (dBind (send_command ok 0xC6) (dBind (send_data ok [0x0F])
  (dBind (send_command ok 0xD0) (dBind (send_data ok [0xA4, 0xA1])
  (dBind (send_command ok 0xE0) (dBind (send_data ok
      [0xD0, 0x04, 0x0D, 0x11, 0x13, 0x2B, 0x3F, 0x54, 0x4C, 0x18, 0x0D, 0x0B, 0x1F, 0x23])
  (dBind (send_command ok 0xE1) (dBind (send_data ok
      [0xD0, 0x04, 0x0C, 0x11, 0x13, 0x2C, 0x3F, 0x44, 0x51, 0x2F, 0x1F, 0x1F, 0x20, 0x23])
  (dBind (send_command ok 0x21)
  (dBind (send_command ok 0x11) (send_command ok 0x29))))))))))))))))))))))))))))

/-- The per-display init loop of `ST7789VWx6::init`
(`for display in Display::all() { self.with_cs(display, Self::init_display)? }`). -/
def initLoop (ok : Nat → Bool) : List Display → DOp
  | [] => fun c => ([], c, Except.ok ())
  | d :: rest => dBind (with_cs d (init_display ok)) (initLoop ok rest)

/-- `Display::all()`: the six displays in order. -/
def displaysAll : List Display :=
  [Display.D1, Display.D2, Display.D3, Display.D4, Display.D5, Display.D6]

/-- `ST7789VWx6::init`: hard reset, set brightness, then initialize every
panel in turn under its chip select. -/
def dispInit (ok : Nat → Bool) (brightness : Nat) : DOp := fun c =>
  match initLoop ok displaysAll c with
  | (e, c1, r) =>
      (hardResetEvents ++ [Event.blDuty brightness] ++ e, c1, r)

/-- `From<ColorRGB8> for ColorRGB565` (`src/misc.rs`): truncate each channel
(`r >> 3`, `g >> 2`, `b >> 3`) and pack 5-6-5. -/
def rgb565_of_rgb8 (r g b : Nat) : Nat :=
  ((r >>> 3) <<< 11) ||| ((g >>> 2) <<< 5) ||| (b >>> 3)

/-- The SPI-write oracle under which every bus write succeeds. -/
def allOk : Nat → Bool := fun _ => true

/-- The chunks written on SPI within an event list, in order. -/
def spiWrites (evs : List Event) : List (List Nat) :=
  evs.filterMap fun e =>
    match e with
    | Event.spiWrite bs => some bs
    | _ => none

/-- Total number of bytes written on SPI within an event list. -/
def dataBytes (evs : List Event) : Nat :=
  ((spiWrites evs).map List.length).sum

/-- Effect of one event on the three CS line states. -/
def csApply (s : Bool × Bool × Bool) (e : Event) : Bool × Bool × Bool :=
  match e with
  | Event.csa1 x => (x, s.2.1, s.2.2)
  | Event.csa2 x => (s.1, x, s.2.2)
  | Event.csa3 x => (s.1, s.2.1, x)
  | _ => s

/-- The CS line states after an event list, from a given initial state. -/
def csFold (s : Bool × Bool × Bool) (evs : List Event) : Bool × Bool × Bool :=
  evs.foldl csApply s

/-- True on event lists containing no SPI write. -/
def noSpi (evs : List Event) : Bool :=
  evs.all fun e =>
    match e with
    | Event.spiWrite _ => false
    | _ => true

/-- An event list that ends by driving all three CS lines high. -/
def endsHigh (evs : List Event) : Prop :=
  ∃ pre, evs = pre ++ csHighEvents

/-- Whatever the CS lines were before, after these events all three are high. -/
def leavesDeselected (evs : List Event) : Prop :=
  ∀ s, csFold s evs = (true, true, true)

/-- The event list starts with the select sequence of the target display. -/
def selectsTarget (d : Display) (evs : List Event) : Prop :=
  ∃ rest, evs = csLowEvents d ++ rest

/-- Some select sequence occurs before any SPI byte. -/
def selectsFirst (evs : List Event) : Prop :=
  ∃ pre d rest, evs = pre ++ (csLowEvents d ++ rest) ∧ noSpi pre = true

end LcdClock

namespace LcdClock

/-! ### Helper lemmas about the display-driver trace model -/

lemma csFold_append (s : Bool × Bool × Bool) (a b : List Event) :
    csFold s (a ++ b) = csFold (csFold s a) b := by
  unfold csFold
  rw [List.foldl_append]

lemma csFold_high (s : Bool × Bool × Bool) :
    csFold s csHighEvents = (true, true, true) := rfl

lemma leavesDeselected_of_endsHigh {evs : List Event} (h : endsHigh evs) :
    leavesDeselected evs := by
  obtain ⟨pre, rfl⟩ := h
  intro s
  rw [csFold_append, csFold_high]

lemma with_cs_events (d : Display) (f : DOp) (c : Nat) :
    (with_cs d f c).1 = csLowEvents d ++ (f c).1 ++ csHighEvents := rfl

lemma with_cs_endsHigh (d : Display) (f : DOp) (c : Nat) :
    endsHigh (with_cs d f c).1 :=
  ⟨csLowEvents d ++ (f c).1, with_cs_events d f c⟩

lemma dBind_events (a b : DOp) (c : Nat) :
    (dBind a b c).1 = (a c).1 ++ (b (a c).2.1).1 ∨ (dBind a b c).1 = (a c).1 := by
  unfold dBind
  rcases ha : a c with ⟨e1, c1, r⟩
  rcases r with er | u
  · right
    rfl
  · left
    rfl

lemma endsHigh_dBind (a b : DOp) (c : Nat) (ha : endsHigh (a c).1)
    (hb : ∀ c', endsHigh (b c').1 ∨ (b c').1 = []) :
    endsHigh (dBind a b c).1 := by
  rcases dBind_events a b c with h | h
  · rcases hb (a c).2.1 with hb' | hb'
    · obtain ⟨pre, hp⟩ := hb'
      exact ⟨(a c).1 ++ pre, by rw [h, hp, List.append_assoc]⟩
    · obtain ⟨pre, hp⟩ := ha
      exact ⟨pre, by rw [h, hb', List.append_nil, hp]⟩
  · obtain ⟨pre, hp⟩ := ha
    exact ⟨pre, by rw [h, hp]⟩

lemma initLoop_endsHigh (ok : Nat → Bool) (ds : List Display) (c : Nat) :
    endsHigh (initLoop ok ds c).1 ∨ (initLoop ok ds c).1 = [] := by
  induction ds generalizing c with
  | nil => right; rfl
  | cons d rest ih =>
      left
      exact endsHigh_dBind _ _ c (with_cs_endsHigh d (init_display ok) c) fun c' => ih c'

lemma dispInit_events (ok : Nat → Bool) (b c : Nat) :
    (dispInit ok b c).1 =
      (hardResetEvents ++ [Event.blDuty b]) ++ (initLoop ok displaysAll c).1 := by
  unfold dispInit
  rcases h : initLoop ok displaysAll c with ⟨e, c1, r⟩
  simp [List.append_assoc]

end LcdClock

namespace LcdClock

/-! ### Theorems for claims C1, C4, C6 -/

/-- Claim C1 counterexample: for the region (0, 0, 9, 9) the current driver
(`src/drivers/st7789vwx6.rs`) emits CASET data `[0, 52, 0, 60]`
(x end offset +51, since `x_end += 52 - 1`) and RASET data `[0, 40, 0, 48]`,
not the `[0, 52, 0, 61]` / `[0, 40, 0, 49]` the claim's (x1+52, y1+40) end
encoding requires. -/
theorem c1_counterexample :
    spiWrites (set_region allOk 0 0 9 9 0).1 =
      [[0x2A], [0, 52, 0, 60], [0x2B], [0, 40, 0, 48]] ∧
    ¬ spiWrites (set_region allOk 0 0 9 9 0).1 =
      [[0x2A], [0, 52, 0, 61], [0x2B], [0, 40, 0, 49]] := by
  constructor
  · rfl
  · decide

/-- Claim C1 amended: in the current driver's `set_region` the four data bytes
after `CASET` are the big-endian encodings of (x0+52, x1+51) and those after
`RASET` of (y0+40, y1+39) — the end offsets subtract 1; the historical version
in `src/st7789vwx6.rs` emits (x0+52, x1+52) and (y0+40, y1+40) as the claim
states (16-bit arithmetic wraps). -/
theorem c1_set_region_bytes (x0 y0 x1 y1 c : Nat) :
    (set_region allOk x0 y0 x1 y1 c).1 =
      [Event.dc false, Event.spiWrite [CASET],
       Event.dc true,
       Event.spiWrite (beBytes (u16 (x0 + 52)) ++ beBytes (u16 (x1 + 51))),
       Event.dc false, Event.spiWrite [RASET],
       Event.dc true,
       Event.spiWrite (beBytes (u16 (y0 + 40)) ++ beBytes (u16 (y1 + 39)))] ∧
    (set_region allOk x0 y0 x1 y1 c).2.2 = Except.ok () ∧
    (set_region_historical allOk x0 y0 x1 y1 c).1 =
      [Event.dc false, Event.spiWrite [CASET],
       Event.dc true,
       Event.spiWrite (beBytes (u16 (x0 + 52)) ++ beBytes (u16 (x1 + 52))),
       Event.dc false, Event.spiWrite [RASET],
       Event.dc true,
       Event.spiWrite (beBytes (u16 (y0 + 40)) ++ beBytes (u16 (y1 + 40)))] :=
  ⟨rfl, rfl, rfl⟩

/-- Claim C4: writing region (0,0,9,9) on panel D3 with a solid red fill of
100 RGB565 pixels (converted from 8-bit red via `From<ColorRGB8>`) produces
exactly: D3's select code 3 asserted on the CS lines (low bits 1,1,0), one
CASET exchange, one RASET exchange, one RAMWR opcode followed by one data
write of the 200 bytes alternating 0xF8, 0x00, and all three CS lines driven
high immediately afterwards; the payload length is 200. -/
theorem c4_red_fill_trace :
    set_pixels allOk Display.D3 0 0 9 9
        ((List.replicate 100 (beBytes (rgb565_of_rgb8 0xFF 0x00 0x00))).flatten) 0 =
      ([Event.csa1 true, Event.csa2 true, Event.csa3 false,
        Event.dc false, Event.spiWrite [0x2A],
        Event.dc true, Event.spiWrite [0, 52, 0, 60],
        Event.dc false, Event.spiWrite [0x2B],
        Event.dc true, Event.spiWrite [0, 40, 0, 48],
        Event.dc false, Event.spiWrite [0x2C],
        Event.dc true, Event.spiWrite ((List.replicate 100 [0xF8, 0x00]).flatten),
        Event.csa1 true, Event.csa2 true, Event.csa3 true], 6, Except.ok ()) ∧
    ((List.replicate 100 (beBytes (rgb565_of_rgb8 0xFF 0x00 0x00))).flatten).length
      = 200 := by
  constructor
  · rfl
  · rfl

/-- Claim C6: for every SPI-failure oracle, every target display and all
arguments, each public drawing operation (`set_pixels`, `set_pixels_iter`,
`init`) leaves all three CS lines high on every exit path (so no operation
returns with a panel selected), and asserts a select sequence — for the two
pixel writers, the target panel's — before any SPI byte is sent. -/
theorem c6_select_discipline (ok : Nat → Bool) (d : Display)
    (x0 y0 x1 y1 : Nat) (colors : List Nat) (b c : Nat) :
    (leavesDeselected (set_pixels ok d x0 y0 x1 y1 colors c).1 ∧
      selectsTarget d (set_pixels ok d x0 y0 x1 y1 colors c).1) ∧
    (leavesDeselected (set_pixels_iter ok d x0 y0 x1 y1 colors c).1 ∧
      selectsTarget d (set_pixels_iter ok d x0 y0 x1 y1 colors c).1) ∧
    (leavesDeselected (dispInit ok b c).1 ∧ selectsFirst (dispInit ok b c).1) := by
  refine ⟨⟨?_, ?_⟩, ⟨?_, ?_⟩, ?_, ?_⟩
  · exact leavesDeselected_of_endsHigh (with_cs_endsHigh d _ c)
  · exact ⟨_, by unfold set_pixels; rw [with_cs_events, List.append_assoc]⟩
  · exact leavesDeselected_of_endsHigh (with_cs_endsHigh d _ c)
  · exact ⟨_, by unfold set_pixels_iter; rw [with_cs_events, List.append_assoc]⟩
  · refine leavesDeselected_of_endsHigh ?_
    have h1 : endsHigh (initLoop ok displaysAll c).1 := by
      exact endsHigh_dBind _ _ c (with_cs_endsHigh Display.D1 (init_display ok) c)
        fun c' => initLoop_endsHigh ok _ c'
    obtain ⟨pre, hp⟩ := h1
    exact ⟨(hardResetEvents ++ [Event.blDuty b]) ++ pre, by
      rw [dispInit_events, hp]
      simp [List.append_assoc]⟩
  · have h2 := dBind_events (with_cs Display.D1 (init_display ok))
      (initLoop ok [Display.D2, Display.D3, Display.D4, Display.D5, Display.D6]) c
    have hloop : (initLoop ok displaysAll c).1 =
        (dBind (with_cs Display.D1 (init_display ok))
          (initLoop ok [Display.D2, Display.D3, Display.D4, Display.D5,
            Display.D6]) c).1 := rfl
    rcases h2 with h | h
    · refine ⟨hardResetEvents ++ [Event.blDuty b], Display.D1,
        (init_display ok c).1 ++ csHighEvents ++
          (initLoop ok [Display.D2, Display.D3, Display.D4, Display.D5,
            Display.D6] (with_cs Display.D1 (init_display ok) c).2.1).1, ?_, rfl⟩
      rw [dispInit_events, hloop, h, with_cs_events]
      simp [List.append_assoc]
    · refine ⟨hardResetEvents ++ [Event.blDuty b], Display.D1,
        (init_display ok c).1 ++ csHighEvents, ?_, rfl⟩
      rw [dispInit_events, hloop, h, with_cs_events]
      simp [List.append_assoc]

end LcdClock

namespace LcdClock

/-! ### Theorems for claims C7, C8, C9, C5, C2, C3 -/

/-- Claim C7: the panel-to-CS-code mapping is the fixed reversed enumeration
D1↦5, D2↦4, D3↦3, D4↦2, D5↦1, D6↦0; it is injective and its image is exactly
the codes 0..5. -/
theorem c7_cs_code_bijection :
    (Display.into_cs_value Display.D1 = 5 ∧ Display.into_cs_value Display.D2 = 4 ∧
     Display.into_cs_value Display.D3 = 3 ∧ Display.into_cs_value Display.D4 = 2 ∧
     Display.into_cs_value Display.D5 = 1 ∧ Display.into_cs_value Display.D6 = 0) ∧
    Function.Injective Display.into_cs_value ∧
    (∀ n, n < 6 → ∃ d : Display, Display.into_cs_value d = n) := by
  refine ⟨⟨rfl, rfl, rfl, rfl, rfl, rfl⟩, ?_, ?_⟩
  · intro a b
    cases a <;> cases b <;> decide
  · intro n hn
    interval_cases n
    exacts [⟨Display.D6, rfl⟩, ⟨Display.D5, rfl⟩, ⟨Display.D4, rfl⟩,
      ⟨Display.D3, rfl⟩, ⟨Display.D2, rfl⟩, ⟨Display.D1, rfl⟩]

/-- Claim C7 witness: the surjectivity part of the claim theorem applied at
the concrete code 0. -/
theorem c7_cs_code_bijection_witness : ∃ d : Display, Display.into_cs_value d = 0 :=
  c7_cs_code_bijection.2.2 0 (by decide)

/-- Claim C8: `display(0xFF, 0x00, 0x80)` packs the word `0x00FF8000`
(green 0x00 in the top byte, red 0xFF next, blue 0x80 next, low byte zero)
and pushes exactly that word once per configured LED. -/
theorem c8_led_word_packing (w : WS2812) :
    ws2812_word 0xFF 0x00 0x80 = 0x00FF8000 ∧
    ws2812_display w 0xFF 0x00 0x80 = List.replicate w.led_count 0x00FF8000 := by
  constructor
  · decide
  · unfold ws2812_display
    rw [show ws2812_word 0xFF 0x00 0x80 = 0x00FF8000 by decide]

/-- Claim C9: with clock 125,000,000 Hz and target bit frequency 8,000,000 Hz,
the computed integer and fractional divider parts recombine to within 1/256 of
the exact ratio. -/
theorem c9_divider_accuracy :
    |((ws2812_div_int 125000000 : ℚ) + (ws2812_div_frac 125000000 : ℚ) / 256)
        - 125000000 / 8000000| < 1 / 256 := by
  have hi : ws2812_div_int 125000000 = 15 := rfl
  have hf : ws2812_div_frac 125000000 = 160 := rfl
  rw [hi, hf]
  norm_num

/-- Claim C5 counterexample: at measured clock 1,000,000 Hz the integer divider
part is 0, yet `WS2812::new` (with the PIO program installing fine) still
succeeds — there is no divider check, refuting "construction succeeds only when
the integer divider part is non-zero". -/
theorem c5_counterexample :
    ws2812_div_int 1000000 = 0 ∧
    ws2812_new 8 1000000 true =
      Except.ok { led_count := 8, div_int := 0, div_frac := 32 } := by
  constructor <;> rfl

/-- Claim C5 amended: construction of the LED driver fails only when installing
the coprocessor program fails (`Error::PioError`); the divider parts are
truncated (`u16`/`u8`) and passed through with no non-zero check, so the
outcome is independent of the measured clock frequency. -/
theorem c5_construction_outcome (led_count clock_freq : Nat) (install_ok : Bool) :
    exOk (ws2812_new led_count clock_freq install_ok) = install_ok ∧
    ws2812_new led_count clock_freq false = Except.error WsError.pioError := by
  cases install_ok <;> simp [ws2812_new, exOk]

/-- Claim C2 counterexample: calling `with_rtc` reentrantly (bus handle and RTC
state both already checked out, humidity state parked) returns with the RTC
slot still absent, refuting "after the call returns ... both ... are occupied". -/
theorem c2_counterexample :
    ¬ (((with_rtc (B := Unit) (R := Unit) (H := Unit)
          ⟨none, none, some ()⟩ (fun p => (p, ()))).1.i2c_bus.isSome = true) ∧
       ((with_rtc (B := Unit) (R := Unit) (H := Unit)
          ⟨none, none, some ()⟩ (fun p => (p, ()))).1.rtc.isSome = true)) := by
  decide

/-- Claim C2 amended: provided the bus handle and both device states are parked
when the checkout operation is called, then after `with_rtc` (resp.
`with_humidity_sensor`) returns, the bus slot and both device-state slots are
again all occupied and the call returned the operation's result (`Ok`); so no
call made from a fully-parked state can leave exactly one of the bus handle and
a device state present. -/
theorem c2_both_parked_after {B R H Res : Type} (s : LcdClockHardware B R H)
    (f : B × R → (B × R) × Res) (g : B × H → (B × H) × Res)
    (hb : s.i2c_bus.isSome = true) (hr : s.rtc.isSome = true)
    (hh : s.humidity_sensor.isSome = true) :
    ((with_rtc s f).1.i2c_bus.isSome = true ∧ (with_rtc s f).1.rtc.isSome = true ∧
      (with_rtc s f).1.humidity_sensor.isSome = true ∧ exOk (with_rtc s f).2 = true) ∧
    ((with_humidity_sensor s g).1.i2c_bus.isSome = true ∧
      (with_humidity_sensor s g).1.rtc.isSome = true ∧
      (with_humidity_sensor s g).1.humidity_sensor.isSome = true ∧
      exOk (with_humidity_sensor s g).2 = true) := by
  obtain ⟨ib, ir, ih⟩ := s
  obtain ⟨bus, rfl⟩ := Option.isSome_iff_exists.mp hb
  obtain ⟨rtcState, rfl⟩ := Option.isSome_iff_exists.mp hr
  obtain ⟨humState, rfl⟩ := Option.isSome_iff_exists.mp hh
  simp [with_rtc, with_humidity_sensor, exOk]

/-- Claim C2 witness: the amended theorem at a concrete fully-parked state. -/
theorem c2_both_parked_after_witness :
    ((Option.isSome (some ()) = true) ∧ (Option.isSome (some ()) = true) ∧
      (Option.isSome (some ()) = true)) ∧
    (((with_rtc (B := Unit) (R := Unit) (H := Unit)
        ⟨some (), some (), some ()⟩ (fun p => (p, 7))).1.i2c_bus.isSome = true) ∧
     ((with_humidity_sensor (B := Unit) (R := Unit) (H := Unit)
        ⟨some (), some (), some ()⟩ (fun p => (p, 7))).1.humidity_sensor.isSome = true)) :=
  ⟨⟨rfl, rfl, rfl⟩,
    (c2_both_parked_after ⟨some (), some (), some ()⟩
        (fun p => (p, 7)) (fun p => (p, 7)) rfl rfl rfl).1.1,
    (c2_both_parked_after ⟨some (), some (), some ()⟩
        (fun p => (p, 7)) (fun p => (p, 7)) rfl rfl rfl).2.2.2.1⟩

/-- Claim C3: a checkout call made while the bus handle or the named device
state is already checked out returns the `I2CClaim` error, leaves the slots
exactly as they were, and never runs the operation (the outcome is the same
for any two operations, so no bus I/O is performed). -/
theorem c3_reentrant_unavailable {B R H Res : Type} (s : LcdClockHardware B R H)
    (f f2 : B × R → (B × R) × Res) (g g2 : B × H → (B × H) × Res) :
    ((s.i2c_bus = none ∨ s.rtc = none) →
      with_rtc s f = (s, Except.error ClockError.i2cClaim) ∧
      with_rtc s f = with_rtc s f2) ∧
    ((s.i2c_bus = none ∨ s.humidity_sensor = none) →
      with_humidity_sensor s g = (s, Except.error ClockError.i2cClaim) ∧
      with_humidity_sensor s g = with_humidity_sensor s g2) := by
  constructor
  · intro h
    have hrw : ∀ (f3 : B × R → (B × R) × Res),
        with_rtc s f3 = (s, Except.error ClockError.i2cClaim) := by
      intro f3
      rcases h with h | h <;> simp [with_rtc, h]
    rw [hrw f, hrw f2]
    exact ⟨rfl, rfl⟩
  · intro h
    have hrw : ∀ (g3 : B × H → (B × H) × Res),
        with_humidity_sensor s g3 = (s, Except.error ClockError.i2cClaim) := by
      intro g3
      rcases h with h | h <;> simp [with_humidity_sensor, h]
    rw [hrw g, hrw g2]
    exact ⟨rfl, rfl⟩

/-- Claim C3 witness: the claim theorem at a concrete state with both the bus
handle and the RTC state checked out. -/
theorem c3_reentrant_unavailable_witness :
    with_rtc (B := Unit) (R := Unit) (H := Unit)
        ⟨none, none, some ()⟩ (fun p => (p, (7 : Nat))) =
      (⟨none, none, some ()⟩, Except.error ClockError.i2cClaim) :=
  ((c3_reentrant_unavailable ⟨none, none, some ()⟩
      (fun p => (p, 7)) (fun p => (p, 7))
      (fun p => (p, (7 : Nat))) (fun p => (p, 7))).1 (Or.inl rfl)).1

end LcdClock

namespace LcdClock

/-! ### The streaming loop of `set_pixels_iter` (claim C10) -/

lemma spiWrites_append (a b : List Event) :
    spiWrites (a ++ b) = spiWrites a ++ spiWrites b := by
  unfold spiWrites
  rw [List.filterMap_append]

lemma sum_map_length_const (fs : List (List Nat)) (h : ∀ w ∈ fs, w.length = 256) :
    (fs.map List.length).sum = 256 * fs.length := by
  induction fs with
  | nil => simp
  | cons w rest ih =>
      simp only [List.map_cons, List.sum_cons, List.length_cons]
      rw [h w (by simp), ih fun w' hw' => h w' (by simp [hw'])]
      ring

/-- Invariant of the buffered streaming loop: under the all-successful oracle,
starting from a 256-byte buffer at index `i < 256`, the loop succeeds, keeps
the buffer at 256 bytes, ends at index `(i + n) % 256`, performs `(i + n) / 256`
full-buffer SPI writes of 256 bytes each, and the bytes of the final buffer at
or beyond the final index are those of the last flushed chunk (or of the
initial buffer if nothing was flushed). -/
lemma pixelsLoop_spec (colors : List Nat) :
    ∀ (buf : List Nat) (i c : Nat), buf.length = 256 → i < 256 →
      (pixelsLoop allOk buf i colors c).result = Except.ok () ∧
      (pixelsLoop allOk buf i colors c).buf.length = 256 ∧
      (pixelsLoop allOk buf i colors c).idx = (i + colors.length) % 256 ∧
      (spiWrites (pixelsLoop allOk buf i colors c).events).length
        = (i + colors.length) / 256 ∧
      (∀ w ∈ spiWrites (pixelsLoop allOk buf i colors c).events, w.length = 256) ∧
      (spiWrites (pixelsLoop allOk buf i colors c).events = [] →
        (pixelsLoop allOk buf i colors c).buf.drop (pixelsLoop allOk buf i colors c).idx
          = buf.drop (pixelsLoop allOk buf i colors c).idx) ∧
      (∀ last, (spiWrites (pixelsLoop allOk buf i colors c).events).getLast? = some last →
        (pixelsLoop allOk buf i colors c).buf.drop (pixelsLoop allOk buf i colors c).idx
          = last.drop (pixelsLoop allOk buf i colors c).idx) := by
  induction colors with
  | nil =>
      intro buf i c hbuf hi
      refine ⟨rfl, hbuf, ?_, ?_, ?_, fun _ => rfl, ?_⟩
      · show i = (i + List.length []) % 256
        simp only [List.length_nil]
        omega
      · show (spiWrites []).length = (i + List.length []) / 256
        simp only [spiWrites, List.filterMap_nil, List.length_nil]
        omega
      · intro w hw
        simp [pixelsLoop, spiWrites] at hw
      · intro last hl
        simp [pixelsLoop, spiWrites] at hl
  | cons v rest ih =>
      intro buf i c hbuf hi
      by_cases h256 : i + 1 = 256
      · have key : pixelsLoop allOk buf i (v :: rest) c =
            ⟨[Event.dc true, Event.spiWrite (buf.set i v)] ++
                (pixelsLoop allOk (buf.set i v) 0 rest (c + 1)).events,
              (pixelsLoop allOk (buf.set i v) 0 rest (c + 1)).count,
              (pixelsLoop allOk (buf.set i v) 0 rest (c + 1)).result,
              (pixelsLoop allOk (buf.set i v) 0 rest (c + 1)).buf,
              (pixelsLoop allOk (buf.set i v) 0 rest (c + 1)).idx⟩ := by
          conv_lhs => rw [pixelsLoop]
          rw [if_pos h256]
          rfl
        have keyE : (pixelsLoop allOk buf i (v :: rest) c).events
            = [Event.dc true, Event.spiWrite (buf.set i v)] ++
                (pixelsLoop allOk (buf.set i v) 0 rest (c + 1)).events := by rw [key]
        have keyR : (pixelsLoop allOk buf i (v :: rest) c).result
            = (pixelsLoop allOk (buf.set i v) 0 rest (c + 1)).result := by rw [key]
        have keyB : (pixelsLoop allOk buf i (v :: rest) c).buf
            = (pixelsLoop allOk (buf.set i v) 0 rest (c + 1)).buf := by rw [key]
        have keyI : (pixelsLoop allOk buf i (v :: rest) c).idx
            = (pixelsLoop allOk (buf.set i v) 0 rest (c + 1)).idx := by rw [key]
        have hsub := ih (buf.set i v) 0 (c + 1)
          (by rw [List.length_set]; exact hbuf) (by omega)
        obtain ⟨hres, hlen, hidx, hcount, hmem, hemp, hlast⟩ := hsub
        have hsw : spiWrites [Event.dc true, Event.spiWrite (buf.set i v)]
            = [buf.set i v] := rfl
        refine ⟨?_, ?_, ?_, ?_, ?_, ?_, ?_⟩
        · rw [keyR]; exact hres
        · rw [keyB]; exact hlen
        · rw [keyI, hidx, List.length_cons]; omega
        · rw [keyE, spiWrites_append, hsw, List.singleton_append,
            List.length_cons, hcount, List.length_cons]
          omega
        · intro w hw
          rw [keyE, spiWrites_append, hsw, List.singleton_append] at hw
          rcases List.mem_cons.mp hw with rfl | hw2
          · rw [List.length_set]; exact hbuf
          · exact hmem w hw2
        · intro h0
          rw [keyE, spiWrites_append, hsw, List.singleton_append] at h0
          exact absurd h0 (List.cons_ne_nil _ _)
        · intro last hl
          rw [keyE, spiWrites_append, hsw, List.singleton_append] at hl
          rw [keyB, keyI]
          rcases hfs : spiWrites (pixelsLoop allOk (buf.set i v) 0 rest (c + 1)).events
            with _ | ⟨w, fs2⟩
          · rw [hfs] at hl
            have : buf.set i v = last := by
              simpa [List.getLast?] using hl
            rw [← this]
            exact hemp hfs
          · rw [hfs, List.getLast?_cons_cons] at hl
            exact hlast last (by rw [hfs]; exact hl)
      · have key2 : pixelsLoop allOk buf i (v :: rest) c =
            pixelsLoop allOk (buf.set i v) (i + 1) rest c := by
          conv_lhs => rw [pixelsLoop]
          rw [if_neg h256]
        have hi1 : i + 1 < 256 := by omega
        have hsub := ih (buf.set i v) (i + 1) c
          (by rw [List.length_set]; exact hbuf) hi1
        obtain ⟨hres, hlen, hidx, hcount, hmem, hemp, hlast⟩ := hsub
        rw [key2]
        refine ⟨hres, hlen, ?_, ?_, hmem, ?_, hlast⟩
        · rw [hidx, List.length_cons]; omega
        · rw [hcount, List.length_cons]; omega
        · intro h0
          have h1 := hemp h0
          rw [h0] at hcount
          have hdiv : (i + 1 + rest.length) / 256 = 0 := by
            simpa using hcount.symm
          have hlt : i < (pixelsLoop allOk (buf.set i v) (i + 1) rest c).idx := by
            rw [hidx]; omega
          rw [h1]
          exact List.drop_set_of_lt v buf hlt

end LcdClock

namespace LcdClock

/-- Behaviour of the post-`RAMWR` body of `set_pixels_iter` under the
all-successful oracle: it succeeds, every SPI chunk is 256 bytes, the total
byte count follows the flush rule, and when a final partial flush happens its
trailing bytes are those of the previous chunk (or zeros if none). -/
lemma iter_body_spec (colors : List Nat) (c : Nat) :
    (iter_body allOk colors c).2.2 = Except.ok () ∧
    (∀ w ∈ spiWrites (iter_body allOk colors c).1, w.length = 256) ∧
    dataBytes (iter_body allOk colors c).1 =
      (if colors.length % 256 = 0 then colors.length
       else (colors.length / 256 + 1) * 256) ∧
    (colors.length % 256 = 0 →
      (spiWrites (iter_body allOk colors c).1).length = colors.length / 256) ∧
    (colors.length % 256 ≠ 0 →
      ∃ loopChunks finalChunk,
        spiWrites (iter_body allOk colors c).1 = loopChunks ++ [finalChunk] ∧
        loopChunks.length = colors.length / 256 ∧
        (loopChunks = [] →
          finalChunk.drop (colors.length % 256)
            = List.replicate (256 - colors.length % 256) 0) ∧
        (∀ last, loopChunks.getLast? = some last →
          finalChunk.drop (colors.length % 256)
            = last.drop (colors.length % 256))) := by
  have spec := pixelsLoop_spec colors (List.replicate 256 0) 0 c
    (by rw [List.length_replicate]) (by omega)
  rcases hP : pixelsLoop allOk (List.replicate 256 0) 0 colors c
    with ⟨evs, cnt, res, fbuf, fidx⟩
  rw [hP] at spec
  dsimp only at spec
  obtain ⟨hres, hlen, hidx, hcount, hmem, hemp, hlast⟩ := spec
  subst hres
  by_cases hr : colors.length % 256 = 0
  · have hfidx : fidx = 0 := by omega
    have hbody : iter_body allOk colors c = (evs, cnt, Except.ok ()) := by
      unfold iter_body
      rw [hP]
      dsimp only
      rw [if_neg fun h => h hfidx]
    have h1 : (iter_body allOk colors c).1 = evs := by rw [hbody]
    refine ⟨by rw [hbody], ?_, ?_, ?_, ?_⟩
    · intro w hw
      rw [h1] at hw
      exact hmem w hw
    · rw [if_pos hr, h1]
      unfold dataBytes
      rw [sum_map_length_const _ hmem, hcount]
      omega
    · intro _
      rw [h1, hcount]
      omega
    · intro h
      exact absurd hr h
  · have hfidx : fidx ≠ 0 := by omega
    have hbody : iter_body allOk colors c
        = (evs ++ [Event.dc true, Event.spiWrite fbuf], cnt + 1, Except.ok ()) := by
      unfold iter_body
      rw [hP]
      dsimp only
      rw [if_pos hfidx]
      rfl
    have h1 : (iter_body allOk colors c).1
        = evs ++ [Event.dc true, Event.spiWrite fbuf] := by rw [hbody]
    have hsw2 : spiWrites [Event.dc true, Event.spiWrite fbuf] = [fbuf] := rfl
    have h2 : spiWrites (iter_body allOk colors c).1 = spiWrites evs ++ [fbuf] := by
      rw [h1, spiWrites_append, hsw2]
    have hfx : fidx = colors.length % 256 := by omega
    refine ⟨by rw [hbody], ?_, ?_, ?_, ?_⟩
    · intro w hw
      rw [h2] at hw
      rcases List.mem_append.mp hw with hw1 | hw1
      · exact hmem w hw1
      · rw [List.mem_singleton.mp hw1]
        exact hlen
    · rw [if_neg hr]
      unfold dataBytes
      rw [h2, List.map_append, List.sum_append, sum_map_length_const _ hmem, hcount]
      simp only [List.map_cons, List.map_nil, List.sum_cons, List.sum_nil, hlen]
      omega
    · intro h
      exact absurd h hr
    · intro _
      refine ⟨spiWrites evs, fbuf, h2, ?_, ?_, ?_⟩
      · rw [hcount]; omega
      · intro hfsnil
        have h3 := hemp hfsnil
        rw [List.drop_replicate] at h3
        rw [← hfx]
        exact h3
      · intro last hlasteq
        have h4 := hlast last hlasteq
        rw [← hfx]
        exact h4

/-- Under the all-successful oracle, `set_pixels_iter` is the select sequence,
the addressing exchanges, the `RAMWR` opcode, the streamed body, and the
deselect sequence, with the result and write count of the body. -/
lemma set_pixels_iter_decomp (d : Display) (x0 y0 x1 y1 c : Nat)
    (colors : List Nat) :
    set_pixels_iter allOk d x0 y0 x1 y1 colors c =
      (Event.csa1 d.into_cs_states.1 :: Event.csa2 d.into_cs_states.2.1 ::
        Event.csa3 d.into_cs_states.2.2 ::
        Event.dc false :: Event.spiWrite [CASET] ::
        Event.dc true ::
        Event.spiWrite (beBytes (u16 (x0 + 52)) ++ beBytes (u16 (x1 + 51))) ::
        Event.dc false :: Event.spiWrite [RASET] ::
        Event.dc true ::
        Event.spiWrite (beBytes (u16 (y0 + 40)) ++ beBytes (u16 (y1 + 39))) ::
        Event.dc false :: Event.spiWrite [RAMWR] ::
        ((iter_body allOk colors (c + 5)).1 ++ csHighEvents),
       (iter_body allOk colors (c + 5)).2.1,
       (iter_body allOk colors (c + 5)).2.2) := rfl

end LcdClock

namespace LcdClock

/-- Claim C10: for every non-empty byte sequence streamed through
`set_pixels_iter` (all bus writes succeeding), after the `RAMWR` opcode the
body performs only 256-byte data writes; when the length n is a multiple of
256 exactly n/256 chunks (n bytes) are written, otherwise a final flush of the
whole 256-byte buffer brings the total to ((n / 256) + 1) * 256 bytes, and the
trailing 256 - (n % 256) bytes of that final flush are the corresponding bytes
of the previous chunk, or zeros when no chunk preceded (n < 256). -/
theorem c10_stream_chunking (d : Display) (x0 y0 x1 y1 c : Nat)
    (colors : List Nat) (hcne : colors ≠ []) :
    ∃ body : List Event,
      (set_pixels_iter allOk d x0 y0 x1 y1 colors c).1 =
        Event.csa1 d.into_cs_states.1 :: Event.csa2 d.into_cs_states.2.1 ::
        Event.csa3 d.into_cs_states.2.2 ::
        Event.dc false :: Event.spiWrite [CASET] ::
        Event.dc true ::
        Event.spiWrite (beBytes (u16 (x0 + 52)) ++ beBytes (u16 (x1 + 51))) ::
        Event.dc false :: Event.spiWrite [RASET] ::
        Event.dc true ::
        Event.spiWrite (beBytes (u16 (y0 + 40)) ++ beBytes (u16 (y1 + 39))) ::
        Event.dc false :: Event.spiWrite [RAMWR] :: (body ++ csHighEvents) ∧
      (set_pixels_iter allOk d x0 y0 x1 y1 colors c).2.2 = Except.ok () ∧
      spiWrites body ≠ [] ∧
      dataBytes body =
        (if colors.length % 256 = 0 then colors.length
         else (colors.length / 256 + 1) * 256) ∧
      (∀ w ∈ spiWrites body, w.length = 256) ∧
      (colors.length % 256 = 0 →
        (spiWrites body).length = colors.length / 256) ∧
      (colors.length % 256 ≠ 0 →
        ∃ loopChunks finalChunk,
          spiWrites body = loopChunks ++ [finalChunk] ∧
          loopChunks.length = colors.length / 256 ∧
          (loopChunks = [] →
            finalChunk.drop (colors.length % 256)
              = List.replicate (256 - colors.length % 256) 0) ∧
          (∀ last, loopChunks.getLast? = some last →
            finalChunk.drop (colors.length % 256)
              = last.drop (colors.length % 256))) := by
  obtain ⟨h1, h2, h3, h4, h5⟩ := iter_body_spec colors (c + 5)
  refine ⟨(iter_body allOk colors (c + 5)).1, ?_, ?_, ?_, h3, h2, h4, h5⟩
  · rw [set_pixels_iter_decomp]
  · rw [set_pixels_iter_decomp]
    exact h1
  · have hn0 : colors.length ≠ 0 := fun h => hcne (List.length_eq_zero.mp h)
    by_cases hr : colors.length % 256 = 0
    · have hc := h4 hr
      intro hnil
      rw [hnil] at hc
      simp only [List.length_nil] at hc
      omega
    · obtain ⟨lf, fb, heq, _, _, _⟩ := h5 hr
      rw [heq]
      simp

/-- Claim C10 witness: the claim theorem at the one-byte stream `[7]` on
panel D1 with region (0, 0, 9, 9). -/
theorem c10_stream_chunking_witness :
    ([7] : List Nat) ≠ [] ∧
    (∃ body : List Event,
      (set_pixels_iter allOk Display.D1 0 0 9 9 [7] 0).1 =
        Event.csa1 Display.D1.into_cs_states.1 ::
        Event.csa2 Display.D1.into_cs_states.2.1 ::
        Event.csa3 Display.D1.into_cs_states.2.2 ::
        Event.dc false :: Event.spiWrite [CASET] ::
        Event.dc true ::
        Event.spiWrite (beBytes (u16 (0 + 52)) ++ beBytes (u16 (9 + 51))) ::
        Event.dc false :: Event.spiWrite [RASET] ::
        Event.dc true ::
        Event.spiWrite (beBytes (u16 (0 + 40)) ++ beBytes (u16 (9 + 39))) ::
        Event.dc false :: Event.spiWrite [RAMWR] :: (body ++ csHighEvents) ∧
      (set_pixels_iter allOk Display.D1 0 0 9 9 [7] 0).2.2 = Except.ok () ∧
      spiWrites body ≠ [] ∧
      dataBytes body =
        (if ([7] : List Nat).length % 256 = 0 then ([7] : List Nat).length
         else (([7] : List Nat).length / 256 + 1) * 256) ∧
      (∀ w ∈ spiWrites body, w.length = 256) ∧
      (([7] : List Nat).length % 256 = 0 →
        (spiWrites body).length = ([7] : List Nat).length / 256) ∧
      (([7] : List Nat).length % 256 ≠ 0 →
        ∃ loopChunks finalChunk,
          spiWrites body = loopChunks ++ [finalChunk] ∧
          loopChunks.length = ([7] : List Nat).length / 256 ∧
          (loopChunks = [] →
            finalChunk.drop (([7] : List Nat).length % 256)
              = List.replicate (256 - ([7] : List Nat).length % 256) 0) ∧
          (∀ last, loopChunks.getLast? = some last →
            finalChunk.drop (([7] : List Nat).length % 256)
              = last.drop (([7] : List Nat).length % 256)))) :=
  ⟨by decide, c10_stream_chunking Display.D1 0 0 9 9 0 [7] (by decide)⟩

end LcdClock

